import Mathlib

/-!
Verification of the user-management core of the acquisitions API:
the users service (`src/services/users.service.js`) and the users
controller (`src/controllers/users.controller.js`), shallowly embedded
over an explicit relational-store state (a list of user rows).

JavaScript thrown errors are modelled as `Except String` values carrying
the error message string, since the controllers dispatch on `e.message`.
Stateful store operations take and return the table explicitly.
Timestamps are naturals; `new Date()` at the moment of a write is passed
in as the `now` argument.  The bcrypt `hashPassword` function lives in
`auth.service.js`, outside the verified sources, and is passed in as an
abstract `hash : String → String` parameter.  Request-shape validation
(Zod schemas) happens upstream of the controllers and is out of scope;
handlers here receive the already-validated id and sparse update set.
-/

namespace Acquisitions

/-- A row of the `users` table (`user.model.js` schema: id, name, email,
password hash, role, created_at, updated_at). -/
structure UserRow where
  id : Nat
  name : String
  email : String
  password : String
  role : String
  created_at : Nat
  updated_at : Nat
deriving Repr, DecidableEq

/-- The `users` table of the relational store. -/
abbrev DB := List UserRow

/-- A scalar column value as it appears in a selected JSON object. -/
inductive Value where
  | nat : Nat → Value
  | str : String → Value
deriving Repr, DecidableEq

/-- The column projection used by every read path of
`users.service.js` (`getAllUsers`, `getUserById`, and the `returning`
clause of `updateUser`): it selects id, name, email, role, created_at
and updated_at, and omits the password column. -/
def selectProjection (u : UserRow) : List (String × Value) :=
  [("id", Value.nat u.id), ("name", Value.str u.name),
   ("email", Value.str u.email), ("role", Value.str u.role),
   ("created_at", Value.nat u.created_at),
   ("updated_at", Value.nat u.updated_at)]

/-- `select ... where eq(users.id, id) limit 1`: the first row whose id
matches. -/
def findById (db : DB) (id : Nat) : Option UserRow :=
  db.find? (fun u => u.id == id)

/-- `getAllUsers` of `users.service.js`: select the projection of every
row. -/
def getAllUsers (db : DB) : List (List (String × Value)) :=
  db.map selectProjection

/-- `getUserById` of `users.service.js`: select by id, throw
`User not found` when no row matches. -/
def getUserById (db : DB) (id : Nat) : Except String (List (String × Value)) :=
  match findById db id with
  | some u => Except.ok (selectProjection u)
  | none => Except.error "User not found"

/-- The sparse update set accepted by `updateUserSchema`: each of name,
email, password, role is optionally present. -/
structure UpdateFields where
  name : Option String := none
  email : Option String := none
  password : Option String := none
  role : Option String := none
deriving Repr, DecidableEq

/-- JavaScript truthiness of an optional string field: present and
non-empty. -/
def truthy : Option String → Bool
  | some s => s != ""
  | none => false

/-- The `updateData` object built by `updateUser`: spread the sparse
updates over the row, hash the password when it is present (truthy),
and set `updated_at` to the time of the write. -/
def applyUpdates (hash : String → String) (now : Nat) (updates : UpdateFields)
    (u : UserRow) : UserRow :=
  { u with
    name := updates.name.getD u.name
    email := updates.email.getD u.email
    password :=
      match updates.password with
      | some p => if p != "" then hash p else p
      | none => u.password
    role := updates.role.getD u.role
    updated_at := now }

/-- Whether `email` is already used by a row other than `excludeId`. -/
def emailTaken (db : DB) (excludeId : Nat) (email : String) : Bool :=
  db.any (fun u => u.id != excludeId && u.email == email)

/-- Modelled from the spec: the relational store enforces the unique
constraint on `email` (`user.model.js` and the database layer are not
among the verified sources).  When an UPDATE would violate it, the
store driver rejects the write with its own constraint-violation
message, which is not one of the service layer's domain messages. -/
def constraintViolationMsg : String :=
  "duplicate key value violates unique constraint users_email_unique"

/-- `updateUser` of `users.service.js`: check the row exists (throw
`User not found` otherwise), build `updateData` (hash password if
present, refresh `updated_at`), then run
`update(users).set(updateData).where(eq(users.id, id)).returning(...)`.
There is no duplicate-email pre-check; a colliding email is rejected by
the store's unique constraint, surfacing the driver's message. -/
def updateUser (hash : String → String) (now : Nat) (db : DB) (id : Nat)
    (updates : UpdateFields) : Except String (List (String × Value)) × DB :=
  match findById db id with
  | none => (Except.error "User not found", db)
  | some u0 =>
      if emailTaken db id (applyUpdates hash now updates u0).email then
        (Except.error constraintViolationMsg, db)
      else
        (Except.ok (selectProjection (applyUpdates hash now updates u0)),
         db.map (fun u => if u.id == id then applyUpdates hash now updates u else u))

/-- `deleteUser` of `users.service.js`: check the row exists (throw
`User not found` otherwise), then `delete(users).where(eq(users.id, id))`. -/
def deleteUser (db : DB) (id : Nat) : Except String Unit × DB :=
  match findById db id with
  | none => (Except.error "User not found", db)
  | some _ => (Except.ok (), db.filter (fun u => u.id != id))

/-- The authenticated actor attached to the request (`req.user`): id and
role. -/
structure Actor where
  id : Nat
  role : String
deriving Repr, DecidableEq

/-- The JSON body of a controller response. -/
inductive RespBody where
  | userBody : String → List (String × Value) → RespBody
  | usersBody : String → List (List (String × Value)) → RespBody
  | msgBody : String → RespBody
  | errBody : String → Option String → RespBody
deriving Repr, DecidableEq

/-- A controller outcome: either `res.status(s).json(body)` or
`next(e)` handing the error to the generic error middleware. -/
inductive CtrlResult where
  | resp : Nat → RespBody → CtrlResult
  | next : String → CtrlResult
deriving Repr, DecidableEq

/-- The HTTP status of a controller outcome, when one was sent. -/
def CtrlResult.status : CtrlResult → Option Nat
  | CtrlResult.resp s _ => some s
  | CtrlResult.next _ => none

/-- The catch block of `fetchUserById`: map the message `User not found`
to 404, pass every other error to `next`. -/
def fetchUserCatch (msg : String) : CtrlResult :=
  if msg == "User not found" then
    CtrlResult.resp 404 (RespBody.errBody "User not found" none)
  else CtrlResult.next msg

/-- The catch block of `updateUserById`: map `User not found` to 404 and
`User with this email already exists` to 409, pass every other error to
`next`. -/
def updateUserCatch (msg : String) : CtrlResult :=
  if msg == "User not found" then
    CtrlResult.resp 404 (RespBody.errBody "User not found" none)
  else if msg == "User with this email already exists" then
    CtrlResult.resp 409 (RespBody.errBody "Email already exists" none)
  else CtrlResult.next msg

/-- The catch block of `deleteUserById`: map `User not found` to 404,
pass every other error to `next`. -/
def deleteUserCatch (msg : String) : CtrlResult :=
  if msg == "User not found" then
    CtrlResult.resp 404 (RespBody.errBody "User not found" none)
  else CtrlResult.next msg

/-- `fetchAllUsers` of `users.controller.js`: only admins may list all
users. -/
def fetchAllUsers (db : DB) (actor : Actor) : CtrlResult :=
  if actor.role != "admin" then
    CtrlResult.resp 403
      (RespBody.errBody "Access denied" (some "Only administrators can view all users"))
  else
    CtrlResult.resp 200 (RespBody.usersBody "Users retrieved successfully" (getAllUsers db))

/-- `fetchUserById` of `users.controller.js`: a user may fetch only
their own profile unless they are admin. -/
def fetchUserById (db : DB) (actor : Actor) (id : Nat) : CtrlResult :=
  if actor.role != "admin" && actor.id != id then
    CtrlResult.resp 403
      (RespBody.errBody "Access denied" (some "You can only view your own profile"))
  else
    match getUserById db id with
    | Except.ok u => CtrlResult.resp 200 (RespBody.userBody "User retrieved successfully" u)
    | Except.error msg => fetchUserCatch msg

/-- `updateUserById` of `users.controller.js`: ownership check (self or
admin), then the role-change check (only admins may send a `role`
field), then the service call with its catch mapping. -/
def updateUserById (hash : String → String) (now : Nat) (db : DB) (actor : Actor)
    (id : Nat) (updates : UpdateFields) : CtrlResult × DB :=
  if actor.role != "admin" && actor.id != id then
    (CtrlResult.resp 403
      (RespBody.errBody "Access denied" (some "You can only update your own profile")), db)
  else if truthy updates.role && actor.role != "admin" then
    (CtrlResult.resp 403
      (RespBody.errBody "Access denied" (some "Only administrators can change user roles")), db)
  else
    match updateUser hash now db id updates with
    | (Except.ok u, db') =>
        (CtrlResult.resp 200 (RespBody.userBody "User updated successfully" u), db')
    | (Except.error msg, db') => (updateUserCatch msg, db')

/-- `deleteUserById` of `users.controller.js`: reject self-deletion with
400, then call the delete service with its catch mapping.  (The
controller performs no role check on this path.) -/
def deleteUserById (db : DB) (actor : Actor) (id : Nat) : CtrlResult × DB :=
  if actor.id == id then
    (CtrlResult.resp 400
      (RespBody.errBody "Invalid operation" (some "You cannot delete your own account")), db)
  else
    match deleteUser db id with
    | (Except.ok _, db') =>
        (CtrlResult.resp 200 (RespBody.msgBody "User deleted successfully"), db')
    | (Except.error msg, db') => (deleteUserCatch msg, db')

/-- Modelled from the spec: `canDelete(actor, target)` is true iff the
actor's role is admin and the actor's id differs from the target. -/
def canDelete (actor : Actor) (target : Nat) : Bool :=
  actor.role == "admin" && actor.id != target

/-- Modelled from the spec: `canViewOne(actor, target)` is true iff the
actor is admin or the target is the actor's own id. -/
def canViewOne (actor : Actor) (target : Nat) : Bool :=
  actor.role == "admin" || actor.id == target

/-- Modelled from the spec: `canUpdate(actor, target)` is true iff the
actor is admin or the target is the actor's own id. -/
def canUpdate (actor : Actor) (target : Nat) : Bool :=
  actor.role == "admin" || actor.id == target

/-- An empty sparse update set. -/
def emptyUpdates : UpdateFields := {}

/-- A concrete stand-in for the external bcrypt hash, used only to
instantiate the abstract `hash` parameter in concrete evaluations. -/
def demoHash (s : String) : String := "h(" ++ s ++ ")"

/-- An admin row used in concrete evaluations. -/
def rowAlice : UserRow :=
  { id := 1, name := "Alice", email := "alice@example.com",
    password := "ha", role := "admin", created_at := 10, updated_at := 10 }

/-- A plain user row used in concrete evaluations. -/
def rowBob : UserRow :=
  { id := 2, name := "Bob", email := "bob@example.com",
    password := "hb", role := "user", created_at := 11, updated_at := 11 }

/-- A second plain user row used in concrete evaluations. -/
def rowEve : UserRow :=
  { id := 5, name := "Eve", email := "eve@example.com",
    password := "he", role := "user", created_at := 12, updated_at := 12 }

/-- A three-user table used in concrete evaluations. -/
def sampleDB : DB := [rowAlice, rowBob, rowEve]

/-- A sparse update carrying only an email that collides with Alice's. -/
def dupEmailUpdate : UpdateFields := { email := some "alice@example.com" }

/-- A sparse update carrying only a role field. -/
def roleUpdate : UpdateFields := { role := some "admin" }

/-- A sparse update carrying only a name field. -/
def nameUpdate : UpdateFields := { name := some "Bobby" }

/-- `applyUpdates` never changes the row's id. -/
lemma applyUpdates_id (hash : String → String) (now : Nat) (updates : UpdateFields)
    (u : UserRow) : (applyUpdates hash now updates u).id = u.id := rfl

/-- Updating in place by a row-id-preserving function commutes with
lookup by id. -/
lemma findById_map_set (db : DB) (id : Nat) (g : UserRow → UserRow)
    (hg : ∀ u, (g u).id = u.id) :
    findById (db.map (fun u => if u.id == id then g u else u)) id
      = Option.map g (findById db id) := by
  induction db with
  | nil => rfl
  | cons a tl ih =>
      by_cases ha : (a.id == id) = true
      · have hga : ((g a).id == id) = true := by rw [hg]; exact ha
        simp [findById, List.find?, ha, hga]
      · have hb : (a.id == id) = false := by simpa using ha
        simpa [findById, List.find?, hb] using ih

/-- C1: the claim says the delete operation is permitted only for admin
actors, every non-admin delete of another user's id being denied with
403 and the row kept.  The controller's delete handler performs no role
check: a non-admin actor (id 5, role user) deleting user 2 is allowed
through, the handler answers 200 and the row is removed — even though
the spec guard `canDelete` denies this actor. -/
theorem claim_C1_delete_lacks_admin_gate :
    deleteUserById sampleDB { id := 5, role := "user" } 2
      = (CtrlResult.resp 200 (RespBody.msgBody "User deleted successfully"),
         [rowAlice, rowEve])
    ∧ canDelete { id := 5, role := "user" } 2 = false := by
  constructor
  · rfl
  · rfl

/-- C2: the claim says an update whose email collides with another row
fails with the DuplicateEmail outcome surfaced as 409.  The update
service performs no duplicate-email pre-check and never raises the
message the controller maps to 409; the store's constraint-violation
error falls through the catch block to `next(e)` (the generic error
path), while the table is indeed left unchanged. -/
theorem claim_C2_dup_email_not_409 :
    updateUserById demoHash 99 sampleDB { id := 1, role := "admin" } 2 dupEmailUpdate
      = (CtrlResult.next constraintViolationMsg, sampleDB)
    ∧ updateUserCatch constraintViolationMsg
        ≠ CtrlResult.resp 409 (RespBody.errBody "Email already exists" none) := by
  constructor
  · rfl
  · decide

/-- C5: a delete request whose target equals the actor's own id is
rejected with 400 and the table is unchanged, for every role; the spec
guard `canDelete` is false on every self pair. -/
theorem claim_C5_self_delete_rejected (db : DB) (actor : Actor) (id : Nat)
    (h : actor.id = id) :
    canDelete actor id = false
    ∧ deleteUserById db actor id
      = (CtrlResult.resp 400
          (RespBody.errBody "Invalid operation"
            (some "You cannot delete your own account")), db) := by
  subst h
  refine ⟨?_, ?_⟩
  · simp [canDelete]
  · simp [deleteUserById]

/-- Witness for C5 at a concrete admin actor deleting itself. -/
theorem claim_C5_self_delete_rejected_witness :
    canDelete { id := 1, role := "admin" } 1 = false
    ∧ deleteUserById sampleDB { id := 1, role := "admin" } 1
      = (CtrlResult.resp 400
          (RespBody.errBody "Invalid operation"
            (some "You cannot delete your own account")), sampleDB) :=
  claim_C5_self_delete_rejected sampleDB { id := 1, role := "admin" } 1 rfl

/-- C10: across the three handlers' catch blocks, an error maps to 404
exactly when its message is `User not found`, to 409 (update handler
only) exactly when its message is `User with this email already
exists`, and every other message is passed to the generic error path
unchanged. -/
theorem claim_C10_error_mapping (msg : String) :
    (fetchUserCatch msg = CtrlResult.resp 404 (RespBody.errBody "User not found" none)
      ↔ msg = "User not found")
    ∧ (deleteUserCatch msg = CtrlResult.resp 404 (RespBody.errBody "User not found" none)
      ↔ msg = "User not found")
    ∧ (updateUserCatch msg = CtrlResult.resp 404 (RespBody.errBody "User not found" none)
      ↔ msg = "User not found")
    ∧ (updateUserCatch msg = CtrlResult.resp 409 (RespBody.errBody "Email already exists" none)
      ↔ msg = "User with this email already exists")
    ∧ (fetchUserCatch msg = CtrlResult.next msg ↔ msg ≠ "User not found")
    ∧ (deleteUserCatch msg = CtrlResult.next msg ↔ msg ≠ "User not found")
    ∧ (updateUserCatch msg = CtrlResult.next msg
      ↔ (msg ≠ "User not found" ∧ msg ≠ "User with this email already exists")) := by
  by_cases h1 : msg = "User not found"
  · subst h1
    simp [fetchUserCatch, deleteUserCatch, updateUserCatch]
  · by_cases h2 : msg = "User with this email already exists"
    · subst h2
      simp [fetchUserCatch, deleteUserCatch, updateUserCatch]
    · simp [fetchUserCatch, deleteUserCatch, updateUserCatch, h1, h2]

/-- Witness for C10: a store error with an unrecognised message goes to
the generic error path in all three handlers. -/
theorem claim_C10_error_mapping_witness :
    fetchUserCatch "connection reset" = CtrlResult.next "connection reset"
    ∧ deleteUserCatch "connection reset" = CtrlResult.next "connection reset"
    ∧ updateUserCatch "connection reset" = CtrlResult.next "connection reset" :=
  ⟨(claim_C10_error_mapping "connection reset").2.2.2.2.1.mpr (by decide),
   (claim_C10_error_mapping "connection reset").2.2.2.2.2.1.mpr (by decide),
   (claim_C10_error_mapping "connection reset").2.2.2.2.2.2.mpr (by decide)⟩

/-- C3: an update payload carrying a role field from a non-admin actor
is rejected with 403 (either by the ownership gate or by the role-change
gate) before the service is called, so no field of the payload is
persisted: the table is returned unchanged. -/
theorem claim_C3_role_change_denied (hash : String → String) (now : Nat) (db : DB)
    (actor : Actor) (id : Nat) (updates : UpdateFields)
    (hrole : truthy updates.role = true) (hadm : actor.role ≠ "admin") :
    (updateUserById hash now db actor id updates).1.status = some 403
    ∧ (updateUserById hash now db actor id updates).2 = db := by
  have h1 : (actor.role != "admin") = true := by simpa using hadm
  by_cases h2 : actor.id = id
  · have hgate : (actor.role != "admin" && actor.id != id) = false := by simp [h2]
    simp [updateUserById, hgate, h1, h2, hrole, CtrlResult.status]
  · have hgate : (actor.role != "admin" && actor.id != id) = true := by simp [h1, h2]
    simp [updateUserById, hgate, CtrlResult.status]

/-- Witness for C3: a non-admin self-update carrying a role field is
answered 403 and the table is unchanged. -/
theorem claim_C3_role_change_denied_witness :
    (updateUserById demoHash 99 sampleDB { id := 5, role := "user" } 5 roleUpdate).1.status
      = some 403
    ∧ (updateUserById demoHash 99 sampleDB { id := 5, role := "user" } 5 roleUpdate).2
      = sampleDB :=
  claim_C3_role_change_denied demoHash 99 sampleDB { id := 5, role := "user" } 5 roleUpdate
    (by decide) (by decide)

/-- C4: every read path — the list of all users, get by id, and the user
object returned by a successful update — yields objects whose keys are
exactly the six projected columns, never the password column. -/
theorem claim_C4_password_never_returned (db : DB) (id : Nat)
    (hash : String → String) (now : Nat) (updates : UpdateFields) :
    (∀ o ∈ getAllUsers db, "password" ∉ o.map Prod.fst)
    ∧ (∀ o, getUserById db id = Except.ok o → "password" ∉ o.map Prod.fst)
    ∧ (∀ o db', updateUser hash now db id updates = (Except.ok o, db')
        → "password" ∉ o.map Prod.fst) := by
  have hkeys : ∀ u : UserRow, "password" ∉ (selectProjection u).map Prod.fst := by
    intro u
    simp [selectProjection]
  refine ⟨?_, ?_, ?_⟩
  · intro o ho
    rcases List.mem_map.1 ho with ⟨u, _, rfl⟩
    exact hkeys u
  · intro o h
    unfold getUserById at h
    cases hf : findById db id with
    | some u =>
        rw [hf] at h
        cases h
        exact hkeys u
    | none =>
        rw [hf] at h
        cases h
  · intro o db' h
    unfold updateUser at h
    cases hf : findById db id with
    | none =>
        rw [hf] at h
        simp at h
    | some u0 =>
        rw [hf] at h
        dsimp only at h
        by_cases ht : emailTaken db id (applyUpdates hash now updates u0).email = true
        · rw [if_pos ht] at h
          simp at h
        · rw [if_neg ht] at h
          have ho : selectProjection (applyUpdates hash now updates u0) = o := by
            have hfst := congrArg Prod.fst h
            simpa using hfst
          rw [← ho]
          exact hkeys (applyUpdates hash now updates u0)

/-- Witness for C4 at a concrete table: the object returned by get by id
carries no password key. -/
theorem claim_C4_password_never_returned_witness :
    "password" ∉ (selectProjection rowAlice).map Prod.fst :=
  (claim_C4_password_never_returned sampleDB 1 demoHash 99 emptyUpdates).2.1
    (selectProjection rowAlice) rfl

/-- C8: on an id with no matching row, both the update and the delete
service throw `User not found` and leave the table untouched, and the
controllers (for an authorized admin actor) answer 404 with the table
untouched. -/
theorem claim_C8_not_found_no_effect (hash : String → String) (now : Nat) (db : DB)
    (id : Nat) (updates : UpdateFields) (actor : Actor)
    (h : findById db id = none) (hadm : actor.role = "admin") (hne : actor.id ≠ id) :
    updateUser hash now db id updates = (Except.error "User not found", db)
    ∧ deleteUser db id = (Except.error "User not found", db)
    ∧ updateUserById hash now db actor id updates
      = (CtrlResult.resp 404 (RespBody.errBody "User not found" none), db)
    ∧ deleteUserById db actor id
      = (CtrlResult.resp 404 (RespBody.errBody "User not found" none), db) := by
  have hadm' : (actor.role != "admin") = false := by simp [hadm]
  have hne' : (actor.id == id) = false := by simpa using hne
  refine ⟨?_, ?_, ?_, ?_⟩
  · simp [updateUser, h]
  · simp [deleteUser, h]
  · simp [updateUserById, hadm', updateUser, h, updateUserCatch]
  · simp [deleteUserById, hne', deleteUser, h, deleteUserCatch]

/-- Witness for C8 at a concrete table and an absent id. -/
theorem claim_C8_not_found_no_effect_witness :
    updateUser demoHash 99 sampleDB 42 nameUpdate = (Except.error "User not found", sampleDB)
    ∧ deleteUser sampleDB 42 = (Except.error "User not found", sampleDB)
    ∧ updateUserById demoHash 99 sampleDB { id := 1, role := "admin" } 42 nameUpdate
      = (CtrlResult.resp 404 (RespBody.errBody "User not found" none), sampleDB)
    ∧ deleteUserById sampleDB { id := 1, role := "admin" } 42
      = (CtrlResult.resp 404 (RespBody.errBody "User not found" none), sampleDB) :=
  claim_C8_not_found_no_effect demoHash 99 sampleDB 42 nameUpdate { id := 1, role := "admin" }
    rfl rfl (by decide)

/-- C9: updating an existing row with an empty sparse field set is not
rejected: it succeeds, every stored field keeps its value, and
`updated_at` is still refreshed to the time of the write. -/
theorem claim_C9_empty_update_refreshes (hash : String → String) (now : Nat) (db : DB)
    (id : Nat) (u0 : UserRow) (h0 : findById db id = some u0)
    (hok : emailTaken db id u0.email = false) :
    (updateUser hash now db id emptyUpdates).1
      = Except.ok (selectProjection { u0 with updated_at := now })
    ∧ findById (updateUser hash now db id emptyUpdates).2 id
      = some { u0 with updated_at := now } := by
  have happ : ∀ u : UserRow, applyUpdates hash now emptyUpdates u = { u with updated_at := now } := by
    intro u
    rfl
  constructor
  · simp [updateUser, h0, happ, hok]
  · have hfind := findById_map_set db id (applyUpdates hash now emptyUpdates)
      (fun u => applyUpdates_id hash now emptyUpdates u)
    simp [happ, h0] at hfind
    simp [updateUser, h0, happ, hok]
    exact hfind

/-- Witness for C9: a zero-field update of Bob succeeds and bumps only
the updated_at column. -/
theorem claim_C9_empty_update_refreshes_witness :
    (updateUser demoHash 99 sampleDB 2 emptyUpdates).1
      = Except.ok (selectProjection { rowBob with updated_at := 99 })
    ∧ findById (updateUser demoHash 99 sampleDB 2 emptyUpdates).2 2
      = some { rowBob with updated_at := 99 } :=
  claim_C9_empty_update_refreshes demoHash 99 sampleDB 2 rowBob rfl rfl

/-- The fetch handler's catch block never produces the ownership 403
response. -/
lemma fetchCatch_ne_own403 (msg : String) :
    fetchUserCatch msg
      ≠ CtrlResult.resp 403
          (RespBody.errBody "Access denied" (some "You can only view your own profile")) := by
  unfold fetchUserCatch
  by_cases h : (msg == "User not found") = true
  · rw [if_pos h]; decide
  · rw [if_neg h]; simp

/-- The update handler's catch block never produces the ownership 403
response. -/
lemma updateCatch_ne_own403 (msg : String) :
    updateUserCatch msg
      ≠ CtrlResult.resp 403
          (RespBody.errBody "Access denied" (some "You can only update your own profile")) := by
  unfold updateUserCatch
  by_cases h1 : (msg == "User not found") = true
  · rw [if_pos h1]; decide
  · rw [if_neg h1]
    by_cases h2 : (msg == "User with this email already exists") = true
    · rw [if_pos h2]; decide
    · rw [if_neg h2]; simp

/-- C6: the view-one and update handlers answer the ownership 403
exactly on the actor-target pairs the spec guards `canViewOne` and
`canUpdate` deny, i.e. when the actor is neither the target nor an
admin. -/
theorem claim_C6_view_update_auth (db : DB) (actor : Actor) (id : Nat)
    (hash : String → String) (now : Nat) (updates : UpdateFields) :
    (fetchUserById db actor id
        = CtrlResult.resp 403
            (RespBody.errBody "Access denied" (some "You can only view your own profile"))
      ↔ canViewOne actor id = false)
    ∧ ((updateUserById hash now db actor id updates).1
        = CtrlResult.resp 403
            (RespBody.errBody "Access denied" (some "You can only update your own profile"))
      ↔ canUpdate actor id = false) := by
  by_cases hok : actor.role = "admin" ∨ actor.id = id
  · have hcv : canViewOne actor id = true := by
      rcases hok with h | h
      · simp [canViewOne, h]
      · simp [canViewOne, h]
    have hcu : canUpdate actor id = true := by
      rcases hok with h | h
      · simp [canUpdate, h]
      · simp [canUpdate, h]
    have hgate : (actor.role != "admin" && actor.id != id) = false := by
      rcases hok with h | h
      · simp [h]
      · simp [h]
    have hfetch : fetchUserById db actor id
        ≠ CtrlResult.resp 403
            (RespBody.errBody "Access denied" (some "You can only view your own profile")) := by
      unfold fetchUserById
      rw [hgate]
      simp only [Bool.false_eq_true, if_false]
      cases hg : getUserById db id with
      | ok u => simp
      | error msg => exact fetchCatch_ne_own403 msg
    have hupd : (updateUserById hash now db actor id updates).1
        ≠ CtrlResult.resp 403
            (RespBody.errBody "Access denied" (some "You can only update your own profile")) := by
      unfold updateUserById
      rw [hgate]
      simp only [Bool.false_eq_true, if_false]
      by_cases hrc : (truthy updates.role && (actor.role != "admin")) = true
      · rw [if_pos hrc]
        show CtrlResult.resp 403
            (RespBody.errBody "Access denied" (some "Only administrators can change user roles"))
          ≠ CtrlResult.resp 403
            (RespBody.errBody "Access denied" (some "You can only update your own profile"))
        decide
      · rw [if_neg hrc]
        cases hu : updateUser hash now db id updates with
        | mk e db2 =>
            cases e with
            | ok u => simp
            | error msg => exact updateCatch_ne_own403 msg
    constructor
    · constructor
      · intro h; exact absurd h hfetch
      · intro h; rw [hcv] at h; cases h
    · constructor
      · intro h; exact absurd h hupd
      · intro h; rw [hcu] at h; cases h
  · push_neg at hok
    obtain ⟨h1, h2⟩ := hok
    have hcv : canViewOne actor id = false := by simp [canViewOne, h1, h2]
    have hcu : canUpdate actor id = false := by simp [canUpdate, h1, h2]
    have hgate : (actor.role != "admin" && actor.id != id) = true := by simp [h1, h2]
    constructor
    · constructor
      · intro _; exact hcv
      · intro _
        unfold fetchUserById
        rw [hgate]
        simp
    · constructor
      · intro _; exact hcu
      · intro _
        unfold updateUserById
        rw [hgate]
        simp

/-- Witness for C6: a non-admin actor fetching another user's profile
receives the ownership 403. -/
theorem claim_C6_view_update_auth_witness :
    fetchUserById sampleDB { id := 2, role := "user" } 1
      = CtrlResult.resp 403
          (RespBody.errBody "Access denied" (some "You can only view your own profile")) :=
  ((claim_C6_view_update_auth sampleDB { id := 2, role := "user" } 1 demoHash 99
    emptyUpdates).1).mpr (by decide)

/-- C7: a successful sparse update of an existing row returns the
projection of the row with exactly the present fields changed (password
re-hashed), `updated_at` refreshed to the write time, id and created_at
untouched; rows with other ids are untouched and a subsequent get by id
reflects the new values. -/
theorem claim_C7_sparse_update_frame (hash : String → String) (now : Nat) (db : DB)
    (id : Nat) (updates : UpdateFields) (u0 : UserRow)
    (h0 : findById db id = some u0)
    (hok : emailTaken db id (applyUpdates hash now updates u0).email = false) :
    (updateUser hash now db id updates).1
      = Except.ok (selectProjection (applyUpdates hash now updates u0))
    ∧ getUserById (updateUser hash now db id updates).2 id
      = Except.ok (selectProjection (applyUpdates hash now updates u0))
    ∧ (applyUpdates hash now updates u0).id = u0.id
    ∧ (applyUpdates hash now updates u0).created_at = u0.created_at
    ∧ (applyUpdates hash now updates u0).updated_at = now
    ∧ (∀ v, updates.name = some v → (applyUpdates hash now updates u0).name = v)
    ∧ (updates.name = none → (applyUpdates hash now updates u0).name = u0.name)
    ∧ (∀ v, updates.email = some v → (applyUpdates hash now updates u0).email = v)
    ∧ (updates.email = none → (applyUpdates hash now updates u0).email = u0.email)
    ∧ (∀ v, updates.role = some v → (applyUpdates hash now updates u0).role = v)
    ∧ (updates.role = none → (applyUpdates hash now updates u0).role = u0.role)
    ∧ (∀ v, updates.password = some v → v ≠ ""
        → (applyUpdates hash now updates u0).password = hash v)
    ∧ (updates.password = none → (applyUpdates hash now updates u0).password = u0.password)
    ∧ (∀ u ∈ db, u.id ≠ id → u ∈ (updateUser hash now db id updates).2) := by
  have hsnd : (updateUser hash now db id updates).2
      = db.map (fun u => if u.id == id then applyUpdates hash now updates u else u) := by
    simp only [updateUser, h0]
    rw [if_neg (by simp [hok])]
  have hfst : (updateUser hash now db id updates).1
      = Except.ok (selectProjection (applyUpdates hash now updates u0)) := by
    simp only [updateUser, h0]
    rw [if_neg (by simp [hok])]
  refine ⟨hfst, ?_, rfl, rfl, rfl, ?_, ?_, ?_, ?_, ?_, ?_, ?_, ?_, ?_⟩
  · have hfind := findById_map_set db id (applyUpdates hash now updates)
      (fun u => applyUpdates_id hash now updates u)
    rw [hsnd]
    unfold getUserById
    rw [hfind, h0]
    rfl
  · intro v hv; simp [applyUpdates, hv]
  · intro hv; simp [applyUpdates, hv]
  · intro v hv; simp [applyUpdates, hv]
  · intro hv; simp [applyUpdates, hv]
  · intro v hv; simp [applyUpdates, hv]
  · intro hv; simp [applyUpdates, hv]
  · intro v hv hne; simp [applyUpdates, hv, hne]
  · intro hv; simp [applyUpdates, hv]
  · intro u hu hne
    rw [hsnd]
    exact List.mem_map.2 ⟨u, hu, by simp [hne]⟩

/-- Witness for C7: updating Bob's name is reflected by a subsequent
get by id. -/
theorem claim_C7_sparse_update_frame_witness :
    getUserById (updateUser demoHash 99 sampleDB 2 nameUpdate).2 2
      = Except.ok (selectProjection (applyUpdates demoHash 99 nameUpdate rowBob)) :=
  (claim_C7_sparse_update_frame demoHash 99 sampleDB 2 nameUpdate rowBob rfl rfl).2.1

end Acquisitions
